import Mathlib

/-!
Verification of the client-side real-time synchronization and reconciliation
engine of the ogradio repository: the song-request list ordering
(`useSongRequests.ts`), the optimistic mutation and vote-toggle paths, the
chat/request broadcast merge (`useChat`, `useSongRequests`), and the
AzuraCast SSE reconnection state machine (`lib/azuracast/realtime.ts`).

Modelling conventions: TypeScript strings stay `String`; ISO timestamp
strings are modelled by their epoch-millisecond value (an `Int`, the value
`new Date(s).getTime()` the code compares); `Set<string>` becomes
`Finset String`; JavaScript `Array.prototype.sort` with the source's
comparator is modelled by `List.insertionSort` over the comparator's
`≤ 0` relation (the comparator is a total preorder and both sorts are
stable, so they agree); fallible writes are parametrised by an explicit
write-result value.
-/

namespace OGRadio

/-- Status of a song request: `'pending' | 'playing' | 'played'`
(`src/types/song-requests`). -/
inductive RequestStatus where
  | pending
  | playing
  | played
deriving DecidableEq

/-- Embedded anonymous-identity descriptor `{username, avatar_url,
is_anonymous}` as used in `anonymous_user` / `profiles` fields. -/
structure AnonymousUser where
  username : String
  avatar_url : Option String
  is_anonymous : Bool
deriving DecidableEq

/-- The local user profile from `AuthContext` (`profile`). -/
structure Profile where
  id : String
  username : String
  avatar_url : Option String
  is_anonymous : Bool
deriving DecidableEq

/-- A song-request row (`SongRequest` of `src/types/song-requests`). -/
structure SongRequest where
  id : String
  user_id : Option String
  song_name : String
  artist : String
  status : RequestStatus
  created_at : Int
  played_at : Option Int
  anonymous_user : Option AnonymousUser
deriving DecidableEq

/-- `SongRequestWithVotes`: a request plus the denormalized vote count, the
current user's vote flag and the optimistic-lifecycle markers. -/
structure SongRequestWithVotes extends SongRequest where
  vote_count : Int
  hasUserVoted : Bool
  _optimistic : Bool := false
  _error : Bool := false
deriving DecidableEq

/-- The comparator of `sortRequests` (useSongRequests.ts lines 458-472):
playing first, then vote count descending, then `created_at` ascending. -/
def cmpRequests (a b : SongRequestWithVotes) : Int :=
  if a.status = RequestStatus.playing ∧ ¬(b.status = RequestStatus.playing) then -1
  else if b.status = RequestStatus.playing ∧ ¬(a.status = RequestStatus.playing) then 1
  else if ¬(b.vote_count = a.vote_count) then b.vote_count - a.vote_count
  else a.created_at - b.created_at

/-- `a` sorts no later than `b` under the `sortRequests` comparator. -/
def requestLE (a b : SongRequestWithVotes) : Prop :=
  cmpRequests a b ≤ 0

instance : DecidableRel requestLE :=
  fun a b => (inferInstance : Decidable (cmpRequests a b ≤ 0))

/-- `sortRequests` (useSongRequests.ts line 458): a stable sort of the list
by `cmpRequests`. -/
def sortRequests (requests : List SongRequestWithVotes) : List SongRequestWithVotes :=
  List.insertionSort requestLE requests

/-- The comparator used once, on the initial bulk load (useSongRequests.ts
lines 91-96): vote count descending then `created_at` ascending — it has no
playing-first rule. -/
def cmpLoad (a b : SongRequestWithVotes) : Int :=
  if ¬(b.vote_count = a.vote_count) then b.vote_count - a.vote_count
  else a.created_at - b.created_at

/-- `a` sorts no later than `b` under the initial-load comparator. -/
def loadLE (a b : SongRequestWithVotes) : Prop :=
  cmpLoad a b ≤ 0

instance : DecidableRel loadLE :=
  fun a b => (inferInstance : Decidable (cmpLoad a b ≤ 0))

/-- The sort applied to the initial bulk snapshot (useSongRequests.ts
lines 91-96). -/
def loadSortRequests (requests : List SongRequestWithVotes) : List SongRequestWithVotes :=
  List.insertionSort loadLE requests

/-- Rank of the playing-first rule: playing entities carry rank 0, all
others rank 1. -/
def playingRank (r : SongRequestWithVotes) : Nat :=
  if r.status = RequestStatus.playing then 0 else 1

theorem requestLE_iff (a b : SongRequestWithVotes) :
    requestLE a b ↔
      playingRank a < playingRank b ∨
        (playingRank a = playingRank b ∧
          (b.vote_count < a.vote_count ∨
            (b.vote_count = a.vote_count ∧ a.created_at ≤ b.created_at))) := by
  unfold requestLE cmpRequests playingRank
  by_cases ha : a.status = RequestStatus.playing <;>
    by_cases hb : b.status = RequestStatus.playing <;>
      by_cases hv : b.vote_count = a.vote_count <;>
        simp [ha, hb, hv] <;> omega

theorem loadLE_iff (a b : SongRequestWithVotes) :
    loadLE a b ↔
      b.vote_count < a.vote_count ∨
        (b.vote_count = a.vote_count ∧ a.created_at ≤ b.created_at) := by
  unfold loadLE cmpLoad
  by_cases hv : b.vote_count = a.vote_count <;> simp [hv] <;> omega

instance : IsTotal SongRequestWithVotes requestLE :=
  ⟨fun a b => by rw [requestLE_iff, requestLE_iff]; omega⟩

instance : IsTrans SongRequestWithVotes requestLE :=
  ⟨fun a b c hab hbc => by
    rw [requestLE_iff] at hab hbc ⊢
    omega⟩

instance : IsTotal SongRequestWithVotes loadLE :=
  ⟨fun a b => by rw [loadLE_iff, loadLE_iff]; omega⟩

instance : IsTrans SongRequestWithVotes loadLE :=
  ⟨fun a b c hab hbc => by
    rw [loadLE_iff] at hab hbc ⊢
    omega⟩

theorem sortRequests_sorted (l : List SongRequestWithVotes) :
    List.Sorted requestLE (sortRequests l) :=
  List.sorted_insertionSort requestLE l

theorem sortRequests_perm (l : List SongRequestWithVotes) :
    List.Perm (sortRequests l) l :=
  List.perm_insertionSort requestLE l

/-- The display order the spec asserts for the request list: a playing
entity precedes every non-playing one; among non-playing entities vote
counts are non-increasing and, at equal vote counts, creation times are
non-decreasing. -/
def playingFirstOrdered (l : List SongRequestWithVotes) : Prop :=
  l.Pairwise fun a b =>
    (b.status = RequestStatus.playing → a.status = RequestStatus.playing) ∧
    (¬(a.status = RequestStatus.playing) → ¬(b.status = RequestStatus.playing) →
      b.vote_count ≤ a.vote_count ∧
        (b.vote_count = a.vote_count → a.created_at ≤ b.created_at))

/-- The weaker order the initial bulk load produces: vote counts
non-increasing, creation times non-decreasing at equal vote counts — with
no playing-first clause. -/
def voteTimeOrdered (l : List SongRequestWithVotes) : Prop :=
  l.Pairwise fun a b =>
    b.vote_count ≤ a.vote_count ∧
      (b.vote_count = a.vote_count → a.created_at ≤ b.created_at)

theorem requestLE_clauses {a b : SongRequestWithVotes} (h : requestLE a b) :
    (b.status = RequestStatus.playing → a.status = RequestStatus.playing) ∧
    (¬(a.status = RequestStatus.playing) → ¬(b.status = RequestStatus.playing) →
      b.vote_count ≤ a.vote_count ∧
        (b.vote_count = a.vote_count → a.created_at ≤ b.created_at)) := by
  rw [requestLE_iff] at h
  unfold playingRank at h
  by_cases ha : a.status = RequestStatus.playing <;>
    by_cases hb : b.status = RequestStatus.playing <;>
      simp [ha, hb] at h ⊢ <;> omega

theorem loadLE_clauses {a b : SongRequestWithVotes} (h : loadLE a b) :
    b.vote_count ≤ a.vote_count ∧
      (b.vote_count = a.vote_count → a.created_at ≤ b.created_at) := by
  rw [loadLE_iff] at h
  omega

/-- Request A of the spec's ordering example: votes 2, created at time 1. -/
def reqA : SongRequestWithVotes :=
  { id := "A", user_id := none, song_name := "a", artist := "a",
    status := RequestStatus.pending, created_at := 1, played_at := none,
    anonymous_user := none, vote_count := 2, hasUserVoted := false }

/-- Request B of the spec's ordering example: votes 5, created at time 2. -/
def reqB : SongRequestWithVotes :=
  { id := "B", user_id := none, song_name := "b", artist := "b",
    status := RequestStatus.pending, created_at := 2, played_at := none,
    anonymous_user := none, vote_count := 5, hasUserVoted := false }

/-- Request C of the spec's ordering example: votes 5, created at time 0. -/
def reqC : SongRequestWithVotes :=
  { id := "C", user_id := none, song_name := "c", artist := "c",
    status := RequestStatus.pending, created_at := 0, played_at := none,
    anonymous_user := none, vote_count := 5, hasUserVoted := false }

/-- A playing request with no votes, created at time 0. -/
def reqP : SongRequestWithVotes :=
  { id := "P", user_id := none, song_name := "p", artist := "p",
    status := RequestStatus.playing, created_at := 0, played_at := none,
    anonymous_user := none, vote_count := 0, hasUserVoted := false }

/-- A pending request with one vote, created at time 1. -/
def reqQ : SongRequestWithVotes :=
  { id := "Q", user_id := none, song_name := "q", artist := "q",
    status := RequestStatus.pending, created_at := 1, played_at := none,
    anonymous_user := none, vote_count := 1, hasUserVoted := false }

/-- C2 counterexample: (i) on the spec's own example A(votes 2, t 1),
B(votes 5, t 2), C(votes 5, t 0), `sortRequests` yields [C, B, A] — the
creation-time tie-break puts C before B — not [B, C, A] as the claim
states; (ii) the initial bulk load sorts only by votes and creation time,
so a playing request P(votes 0) is placed after a pending request
Q(votes 1), violating the claimed playing-first clause at the
initial-bulk-load point. -/
theorem C2_order_counterexample :
    sortRequests [reqA, reqB, reqC] = [reqC, reqB, reqA] ∧
    ¬(sortRequests [reqA, reqB, reqC] = [reqB, reqC, reqA]) ∧
    reqP.status = RequestStatus.playing ∧
    ¬(reqQ.status = RequestStatus.playing) ∧
    loadSortRequests [reqP, reqQ] = [reqQ, reqP] := by
  refine ⟨by decide, by decide, by decide, by decide, by decide⟩

/-- C2 (amended): every list produced by `sortRequests` — i.e. after an
optimistic insert, a broadcast merge of a new request, or a vote change —
satisfies the total order: playing entities first, then vote count
non-increasing, then creation time non-decreasing at equal vote counts.
The initial bulk load instead sorts only by vote count (non-increasing)
and creation time (non-decreasing at ties), without the playing-first
clause. On the example requests A(votes 2, t 1), B(votes 5, t 2),
C(votes 5, t 0) the produced order is [C, B, A]. -/
theorem C2_request_order_amended :
    (∀ l : List SongRequestWithVotes, playingFirstOrdered (sortRequests l)) ∧
    (∀ l : List SongRequestWithVotes, voteTimeOrdered (loadSortRequests l)) ∧
    sortRequests [reqA, reqB, reqC] = [reqC, reqB, reqA] := by
  refine ⟨fun l => ?_, fun l => ?_, by decide⟩
  · exact (List.sorted_insertionSort requestLE l).imp fun h => requestLE_clauses h
  · exact (List.sorted_insertionSort loadLE l).imp fun h => loadLE_clauses h

/-- Connection status of the AzuraCast SSE client
(`lib/azuracast/realtime.ts` line 8). -/
inductive ConnectionStatus where
  | connecting
  | connected
  | disconnected
  | error
deriving DecidableEq

/-- The mutable fields of `AzuraCastRealtimeClient` that the reconnection
logic reads and writes: whether `this.eventSource` is non-null, `status`,
`reconnectAttempts`, and the pending `reconnectTimeout` (modelled by the
delay, in milliseconds, it was scheduled with). -/
structure RealtimeClient where
  hasEventSource : Bool
  status : ConnectionStatus
  reconnectAttempts : Nat
  reconnectTimeout : Option Nat
deriving DecidableEq

/-- `maxReconnectAttempts` (realtime.ts line 32). -/
def maxReconnectAttempts : Nat := 5

/-- `reconnectDelays` (realtime.ts line 33). -/
def reconnectDelays : List Nat := [1000, 2000, 5000, 10000, 30000]

/-- `scheduleReconnect` (realtime.ts lines 191-205): below the attempt cap,
arm the reconnect timer with
`reconnectDelays[min(reconnectAttempts, reconnectDelays.length - 1)]`;
at or above the cap, do nothing. -/
def scheduleReconnect (c : RealtimeClient) : RealtimeClient :=
  if maxReconnectAttempts ≤ c.reconnectAttempts then c
  else
    let delay :=
      reconnectDelays.getD (min c.reconnectAttempts (reconnectDelays.length - 1)) 0
    { c with reconnectTimeout := some delay }

/-- `connect` (realtime.ts lines 44-120): a no-op while an EventSource
exists; otherwise set status `connecting` and create the EventSource. -/
def clientConnect (c : RealtimeClient) : RealtimeClient :=
  if c.hasEventSource then c
  else { c with status := ConnectionStatus.connecting, hasEventSource := true }

/-- `disconnect` (realtime.ts lines 125-140): clear the pending reconnect
timer, close and drop the EventSource, set status `disconnected` and reset
`reconnectAttempts` to 0. -/
def clientDisconnect (_ : RealtimeClient) : RealtimeClient :=
  { hasEventSource := false, status := ConnectionStatus.disconnected,
    reconnectAttempts := 0, reconnectTimeout := none }

/-- The `onopen` handler (realtime.ts lines 71-75): status `connected`,
attempt counter reset. -/
def onOpen (c : RealtimeClient) : RealtimeClient :=
  { c with status := ConnectionStatus.connected, reconnectAttempts := 0 }

/-- The `onerror` handler when the browser reports the stream closed
(realtime.ts lines 88-102): set status `error` and call
`scheduleReconnect`. Only applicable while an EventSource exists. -/
def onStreamClosed (c : RealtimeClient) : RealtimeClient :=
  if c.hasEventSource then scheduleReconnect { c with status := ConnectionStatus.error }
  else c

/-- The reconnect timer firing (realtime.ts lines 200-204): increment
`reconnectAttempts`, then `disconnect()`, then `connect()`. -/
def timerFire (c : RealtimeClient) : RealtimeClient :=
  match c.reconnectTimeout with
  | none => c
  | some _ =>
      clientConnect (clientDisconnect
        { c with reconnectAttempts := c.reconnectAttempts + 1 })

/-- Manual `reconnect` (realtime.ts lines 228-233): reset the attempt
counter, `disconnect()`, `connect()`. -/
def clientReconnect (c : RealtimeClient) : RealtimeClient :=
  clientConnect (clientDisconnect { c with reconnectAttempts := 0 })

/-- The client's initial state (realtime.ts lines 29-34). -/
def clientInit : RealtimeClient :=
  { hasEventSource := false, status := ConnectionStatus.disconnected,
    reconnectAttempts := 0, reconnectTimeout := none }

/-- The state after `connect()` followed by n + 1 consecutive connection
failures, each failure (after the first) preceded by its scheduled
automatic reconnection attempt firing. -/
def runFailures : Nat → RealtimeClient
  | 0 => onStreamClosed (clientConnect clientInit)
  | n + 1 => onStreamClosed (timerFire (runFailures n))

/-- C1 (code bug): the attempt cap is unreachable on the automatic
reconnection path. After every consecutive connection failure — the 6th and
beyond included — the client has `reconnectAttempts = 0` and a reconnect
timer armed with the constant delay 1000 ms: the `disconnect()` called
inside the timer callback resets `reconnectAttempts` to 0 before
`connect()` runs, so no run of failures ever reaches
`maxReconnectAttempts = 5`, scheduling never stops, and the backoff
sequence never advances past its first entry. -/
theorem C1_reconnect_cap_never_reached :
    maxReconnectAttempts = 5 ∧
    reconnectDelays = [1000, 2000, 5000, 10000, 30000] ∧
    ∀ n : Nat, runFailures n =
      { hasEventSource := true, status := ConnectionStatus.error,
        reconnectAttempts := 0, reconnectTimeout := some 1000 } := by
  refine ⟨rfl, rfl, fun n => ?_⟩
  induction n with
  | zero => decide
  | succ n ih =>
      show onStreamClosed (timerFire (runFailures n)) = _
      rw [ih]
      decide

/-- Outcome of a durable write against the `upvotes` table. The code
distinguishes none of these: both failure kinds reach the same `catch`. -/
inductive WriteResult where
  | ok
  | uniqueViolation
  | otherError
deriving DecidableEq

/-- The local state of `useSongRequests` that `toggleVote` reads and
writes: the `requests` list, the `userVotes` set and the `error` string. -/
structure RequestsState where
  requests : List SongRequestWithVotes
  userVotes : Finset String
  error : Option String
deriving DecidableEq

/-- The per-entry optimistic update of `toggleVote` (useSongRequests.ts
lines 339-351): on the entry with the toggled id, decrement the count when
already voted and increment it otherwise, and flip the flag. -/
def optimisticVoteUpdate (requestId : String) (isVoted : Bool)
    (r : SongRequestWithVotes) : SongRequestWithVotes :=
  if r.id = requestId then
    { r with
        vote_count := if isVoted then r.vote_count - 1 else r.vote_count + 1,
        hasUserVoted := !isVoted }
  else r

/-- The per-entry rollback update of `toggleVote` (useSongRequests.ts
lines 414-426): the inverse count adjustment, and the flag restored to the
captured `isVoted`. -/
def rollbackVoteUpdate (requestId : String) (isVoted : Bool)
    (r : SongRequestWithVotes) : SongRequestWithVotes :=
  if r.id = requestId then
    { r with
        vote_count := if isVoted then r.vote_count + 1 else r.vote_count - 1,
        hasUserVoted := isVoted }
  else r

/-- The `setUserVotes` updater of the optimistic phase (useSongRequests.ts
lines 353-361). -/
def optimisticVotesSet (requestId : String) (isVoted : Bool)
    (votes : Finset String) : Finset String :=
  if isVoted then votes.erase requestId else insert requestId votes

/-- The `setUserVotes` updater of the rollback (useSongRequests.ts
lines 428-436). -/
def rollbackVotesSet (requestId : String) (isVoted : Bool)
    (votes : Finset String) : Finset String :=
  if isVoted then insert requestId votes else votes.erase requestId

/-- The synchronous optimistic phase of `toggleVote`: read membership,
update the list (re-sorting it) and the membership set. -/
def toggleOptimistic (requestId : String) (s : RequestsState) : RequestsState :=
  let isVoted := decide (requestId ∈ s.userVotes)
  { s with
      requests := sortRequests (s.requests.map (optimisticVoteUpdate requestId isVoted)),
      userVotes := optimisticVotesSet requestId isVoted s.userVotes }

/-- Completion of `toggleVote` once its write resolves; `isVoted` is the
membership value the call captured before its optimistic update. On
success the code only reads the authoritative count and broadcasts it — it
performs no local state update and returns `true`. On any failure
(uniqueness violation included) it rolls the optimistic update back,
re-sorting again, sets the error 'Error al actualizar voto' and returns
`false` (useSongRequests.ts lines 363-440). -/
def toggleComplete (writeResult : WriteResult) (requestId : String)
    (isVoted : Bool) (s : RequestsState) : RequestsState × Bool :=
  match writeResult with
  | WriteResult.ok => (s, true)
  | _ =>
      ({ s with
          requests := sortRequests (s.requests.map (rollbackVoteUpdate requestId isVoted)),
          userVotes := rollbackVotesSet requestId isVoted s.userVotes,
          error := some "Error al actualizar voto" }, false)

/-- `toggleVote` run from call to write completion with the given write
outcome (useSongRequests.ts lines 326-443). -/
def toggleVote (writeResult : WriteResult) (requestId : String)
    (s : RequestsState) : RequestsState × Bool :=
  toggleComplete writeResult requestId (decide (requestId ∈ s.userVotes))
    (toggleOptimistic requestId s)

/-- The (id, vote count) view of a request entry: what the claim about
displayed vote counts observes. -/
def voteView (r : SongRequestWithVotes) : String × Int :=
  (r.toSongRequest.id, r.vote_count)

theorem votesSet_cancel (requestId : String) (votes : Finset String) :
    rollbackVotesSet requestId (decide (requestId ∈ votes))
      (optimisticVotesSet requestId (decide (requestId ∈ votes)) votes) = votes := by
  unfold rollbackVotesSet optimisticVotesSet
  by_cases h : requestId ∈ votes
  · simp [h, Finset.insert_erase]
  · simp [h, Finset.erase_insert]

theorem votesSet_toggle_twice (requestId : String) (votes : Finset String) :
    optimisticVotesSet requestId
      (decide (requestId ∈ optimisticVotesSet requestId (decide (requestId ∈ votes)) votes))
      (optimisticVotesSet requestId (decide (requestId ∈ votes)) votes) = votes := by
  unfold optimisticVotesSet
  by_cases h : requestId ∈ votes
  · simp [h, Finset.insert_erase]
  · simp [h, Finset.erase_insert]

theorem optimistic_then_rollback_entry (requestId : String) (v : Bool)
    (r : SongRequestWithVotes) (h : r.id = requestId → r.hasUserVoted = v) :
    rollbackVoteUpdate requestId v (optimisticVoteUpdate requestId v r) = r := by
  unfold rollbackVoteUpdate optimisticVoteUpdate
  by_cases hid : r.id = requestId
  · cases r with
    | mk base vc flag o e =>
        cases v <;> simp_all
  · simp [hid]

theorem double_toggle_entry_view (requestId : String) (v : Bool)
    (r : SongRequestWithVotes) :
    voteView (optimisticVoteUpdate requestId (!v)
      (optimisticVoteUpdate requestId v r)) = voteView r := by
  unfold voteView optimisticVoteUpdate
  by_cases hid : r.id = requestId
  · cases v <;> simp [hid]
  · simp [hid]

theorem optimisticVoteUpdate_ne (requestId : String) (v : Bool)
    (r : SongRequestWithVotes) (h : ¬(r.id = requestId)) :
    optimisticVoteUpdate requestId v r = r := by
  unfold optimisticVoteUpdate
  simp [h]

theorem rollbackVoteUpdate_ne (requestId : String) (v : Bool)
    (r : SongRequestWithVotes) (h : ¬(r.id = requestId)) :
    rollbackVoteUpdate requestId v r = r := by
  unfold rollbackVoteUpdate
  simp [h]

theorem optimisticVoteUpdate_id (requestId : String) (v : Bool)
    (r : SongRequestWithVotes) :
    (optimisticVoteUpdate requestId v r).id = r.id := by
  unfold optimisticVoteUpdate
  split <;> rfl

theorem rollbackVoteUpdate_id (requestId : String) (v : Bool)
    (r : SongRequestWithVotes) :
    (rollbackVoteUpdate requestId v r).id = r.id := by
  unfold rollbackVoteUpdate
  split <;> rfl

theorem mem_sortRequests {r : SongRequestWithVotes}
    {l : List SongRequestWithVotes} : r ∈ sortRequests l ↔ r ∈ l := by
  unfold sortRequests
  exact List.mem_insertionSort requestLE

theorem rollbackVotesSet_eq_optimistic (requestId : String) (v : Bool)
    (votes : Finset String) :
    rollbackVotesSet requestId v votes = optimisticVotesSet requestId (!v) votes := by
  cases v <;> rfl

theorem mem_optimisticVotesSet_ne (x requestId : String) (v : Bool)
    (votes : Finset String) (h : ¬(x = requestId)) :
    x ∈ optimisticVotesSet requestId v votes ↔ x ∈ votes := by
  cases v <;> simp [optimisticVotesSet, h]

theorem decide_mem_optimisticVotesSet_self (requestId : String)
    (votes : Finset String) :
    decide (requestId ∈
        optimisticVotesSet requestId (decide (requestId ∈ votes)) votes)
      = !(decide (requestId ∈ votes)) := by
  by_cases h : requestId ∈ votes <;> simp [optimisticVotesSet, h]

theorem frame_guarded_step (requestId : String)
    (f : SongRequestWithVotes → SongRequestWithVotes)
    (hf : ∀ r, ¬(r.id = requestId) → f r = r)
    (hid : ∀ r, (f r).id = r.id)
    (l : List SongRequestWithVotes) (r : SongRequestWithVotes) :
    (r ∈ l → ¬(r.id = requestId) → r ∈ sortRequests (l.map f)) ∧
    (r ∈ sortRequests (l.map f) → ¬(r.id = requestId) → r ∈ l) := by
  constructor
  · intro hr hne
    rw [mem_sortRequests, List.mem_map]
    exact ⟨r, hr, hf r hne⟩
  · intro hr hne
    rw [mem_sortRequests, List.mem_map] at hr
    obtain ⟨a, ha, rfl⟩ := hr
    have hane : ¬(a.id = requestId) := by rw [← hid a]; exact hne
    rw [hf a hane]
    exact ha

theorem rollback_requests_restore (requestId : String) (v : Bool)
    (l : List SongRequestWithVotes)
    (h : ∀ r ∈ l, r.id = requestId → r.hasUserVoted = v) :
    List.Perm
      (sortRequests ((sortRequests (l.map (optimisticVoteUpdate requestId v))).map
        (rollbackVoteUpdate requestId v))) l := by
  refine (sortRequests_perm _).trans ?_
  refine ((sortRequests_perm _).map _).trans ?_
  rw [List.map_map]
  have hmap : l.map (rollbackVoteUpdate requestId v ∘ optimisticVoteUpdate requestId v)
      = l.map id := by
    refine List.map_congr_left fun r hr => ?_
    by_cases hid : r.id = requestId
    · exact optimistic_then_rollback_entry requestId v r fun _ => h r hr hid
    · show rollbackVoteUpdate requestId v (optimisticVoteUpdate requestId v r) = r
      rw [optimisticVoteUpdate_ne requestId v r hid,
        rollbackVoteUpdate_ne requestId v r hid]
  rw [hmap, List.map_id]

theorem double_toggle_requests_view (requestId : String) (v : Bool)
    (l : List SongRequestWithVotes) :
    List.Perm
      ((sortRequests ((sortRequests (l.map (optimisticVoteUpdate requestId v))).map
          (optimisticVoteUpdate requestId (!v)))).map voteView)
      (l.map voteView) := by
  refine ((sortRequests_perm _).map _).trans ?_
  rw [List.map_map]
  refine ((sortRequests_perm _).map _).trans ?_
  rw [List.map_map]
  refine List.Perm.of_eq ?_
  exact List.map_congr_left fun r _ => double_toggle_entry_view requestId v r

/-- The concrete pending request used for witness states. -/
def reqR1 : SongRequestWithVotes :=
  { id := "r1", user_id := none, song_name := "song", artist := "artist",
    status := RequestStatus.pending, created_at := 0, played_at := none,
    anonymous_user := none, vote_count := 0, hasUserVoted := false }

/-- A concrete state: one pending request, no votes by the current user,
no error. -/
def stateR1 : RequestsState :=
  { requests := [reqR1], userVotes := ∅, error := none }

/-- C4 counterexample: with no existing vote, a vote insert failing with a
uniqueness violation is NOT reconciled silently to the voted state — the
code rolls the optimistic update back to unvoted (membership cleared, flag
false, count 0) and surfaces the user-visible error
'Error al actualizar voto', returning failure. -/
theorem C4_unique_violation_counterexample :
    (toggleVote WriteResult.uniqueViolation "r1" stateR1).fst.error
        = some "Error al actualizar voto" ∧
    (toggleVote WriteResult.uniqueViolation "r1" stateR1).snd = false ∧
    ¬("r1" ∈ (toggleVote WriteResult.uniqueViolation "r1" stateR1).fst.userVotes) ∧
    (toggleVote WriteResult.uniqueViolation "r1" stateR1).fst.requests = [reqR1] := by
  refine ⟨rfl, rfl, by decide, by decide⟩

/-- C4 (amended): `toggleVote` does not distinguish a uniqueness violation
from any other write failure: both run the same rollback path, which
surfaces the error 'Error al actualizar voto', returns failure, and
restores the membership set to its pre-toggle value — there is no silent
reconciliation to the voted state and no idempotent no-op handling. -/
theorem C4_unique_violation_amended :
    ∀ (s : RequestsState) (requestId : String),
      toggleVote WriteResult.uniqueViolation requestId s
          = toggleVote WriteResult.otherError requestId s ∧
      (toggleVote WriteResult.uniqueViolation requestId s).fst.error
          = some "Error al actualizar voto" ∧
      (toggleVote WriteResult.uniqueViolation requestId s).snd = false ∧
      (toggleVote WriteResult.uniqueViolation requestId s).fst.userVotes
          = s.userVotes := by
  intro s requestId
  refine ⟨rfl, rfl, rfl, ?_⟩
  exact votesSet_cancel requestId s.userVotes

/-- C5 (confirmed): toggling the same request twice from the same identity
returns the membership set to its original value and leaves every entry's
displayed (id, vote count) view unchanged up to the re-sort, and this is
independent of write completion order because the success completion of a
toggle performs no local state update at all (it only reads the
authoritative count and broadcasts it) — each toggle's direction is
decided by the membership set at call time, not by accumulated count
deltas. -/
theorem C5_double_toggle_stable :
    ∀ (s : RequestsState) (requestId : String),
      (toggleVote WriteResult.ok requestId
          (toggleVote WriteResult.ok requestId s).fst).fst.userVotes = s.userVotes ∧
      List.Perm
        (((toggleVote WriteResult.ok requestId
            (toggleVote WriteResult.ok requestId s).fst).fst.requests).map voteView)
        (s.requests.map voteView) ∧
      (∀ (requestId2 : String) (v : Bool) (s2 : RequestsState),
        (toggleComplete WriteResult.ok requestId2 v s2).fst = s2) := by
  intro s requestId
  refine ⟨?_, ?_, fun _ _ _ => rfl⟩
  · exact votesSet_toggle_twice requestId s.userVotes
  · show List.Perm
      ((sortRequests (((toggleVote WriteResult.ok requestId s).fst.requests).map
          (optimisticVoteUpdate requestId
            (decide (requestId ∈ (toggleVote WriteResult.ok requestId s).fst.userVotes))))).map
        voteView)
      (s.requests.map voteView)
    have hv2 : (decide (requestId ∈ (toggleVote WriteResult.ok requestId s).fst.userVotes))
        = !(decide (requestId ∈ s.userVotes)) :=
      decide_mem_optimisticVotesSet_self requestId s.userVotes
    rw [hv2]
    exact double_toggle_requests_view requestId (decide (requestId ∈ s.userVotes)) s.requests

/-- C6 (confirmed): when the write issued by a vote toggle fails, the
rollback restores the membership set exactly, restores every list entry
exactly (the list after rollback is a permutation — a re-sort — of the
pre-toggle list), reapplies the sort, and records the error; the
hypothesis is the consistency invariant that the toggled entry's
`hasUserVoted` flag agrees with the membership set before the toggle. -/
theorem C6_rollback_exact :
    ∀ (writeResult : WriteResult) (s : RequestsState) (requestId : String),
      ¬(writeResult = WriteResult.ok) →
      (∀ r ∈ s.requests, r.id = requestId →
        r.hasUserVoted = decide (requestId ∈ s.userVotes)) →
      (toggleVote writeResult requestId s).fst.userVotes = s.userVotes ∧
      List.Perm (toggleVote writeResult requestId s).fst.requests s.requests ∧
      List.Sorted requestLE (toggleVote writeResult requestId s).fst.requests ∧
      (toggleVote writeResult requestId s).fst.error
        = some "Error al actualizar voto" := by
  intro writeResult s requestId hwr h
  cases writeResult with
  | ok => exact absurd rfl hwr
  | uniqueViolation =>
      exact ⟨votesSet_cancel requestId s.userVotes,
        rollback_requests_restore requestId (decide (requestId ∈ s.userVotes)) s.requests h,
        sortRequests_sorted _, rfl⟩
  | otherError =>
      exact ⟨votesSet_cancel requestId s.userVotes,
        rollback_requests_restore requestId (decide (requestId ∈ s.userVotes)) s.requests h,
        sortRequests_sorted _, rfl⟩

/-- C6 witness: the rollback restoration at the concrete one-request state
`stateR1` with a generic write failure. -/
theorem C6_rollback_exact_witness :
    (toggleVote WriteResult.otherError "r1" stateR1).fst.userVotes = stateR1.userVotes ∧
    List.Perm (toggleVote WriteResult.otherError "r1" stateR1).fst.requests stateR1.requests ∧
    List.Sorted requestLE (toggleVote WriteResult.otherError "r1" stateR1).fst.requests ∧
    (toggleVote WriteResult.otherError "r1" stateR1).fst.error
      = some "Error al actualizar voto" :=
  C6_rollback_exact WriteResult.otherError stateR1 "r1" (by decide) (by decide)

/-- C9 (confirmed): a vote toggle — its optimistic update and, on failure,
its rollback — touches only the entry whose id is the toggled request: any
other entry is in the pre-state list if and only if it is, unchanged in
all fields, in the post-state list (only its position may change via the
re-sort), and the membership set is unchanged at every other id. -/
theorem C9_toggle_frame :
    ∀ (writeResult : WriteResult) (s : RequestsState) (requestId : String),
      (∀ r ∈ s.requests, ¬(r.id = requestId) →
        r ∈ (toggleVote writeResult requestId s).fst.requests) ∧
      (∀ r ∈ (toggleVote writeResult requestId s).fst.requests, ¬(r.id = requestId) →
        r ∈ s.requests) ∧
      (∀ x : String, ¬(x = requestId) →
        (x ∈ (toggleVote writeResult requestId s).fst.userVotes ↔ x ∈ s.userVotes)) := by
  intro writeResult s requestId
  have hv := decide (requestId ∈ s.userVotes)
  have step1 := fun r => frame_guarded_step requestId
    (optimisticVoteUpdate requestId (decide (requestId ∈ s.userVotes)))
    (fun a ha => optimisticVoteUpdate_ne requestId _ a ha)
    (fun a => optimisticVoteUpdate_id requestId _ a) s.requests r
  cases writeResult with
  | ok =>
      refine ⟨fun r hr hne => (step1 r).1 hr hne, fun r hr hne => (step1 r).2 hr hne, ?_⟩
      intro x hx
      exact mem_optimisticVotesSet_ne x requestId _ s.userVotes hx
  | uniqueViolation =>
      have step2 := fun r => frame_guarded_step requestId
        (rollbackVoteUpdate requestId (decide (requestId ∈ s.userVotes)))
        (fun a ha => rollbackVoteUpdate_ne requestId _ a ha)
        (fun a => rollbackVoteUpdate_id requestId _ a)
        (sortRequests (s.requests.map
          (optimisticVoteUpdate requestId (decide (requestId ∈ s.userVotes))))) r
      refine ⟨fun r hr hne => (step2 r).1 ((step1 r).1 hr hne) hne,
        fun r hr hne => (step1 r).2 ((step2 r).2 hr hne) hne, ?_⟩
      intro x hx
      show x ∈ rollbackVotesSet requestId (decide (requestId ∈ s.userVotes))
          (optimisticVotesSet requestId (decide (requestId ∈ s.userVotes)) s.userVotes)
        ↔ x ∈ s.userVotes
      rw [rollbackVotesSet_eq_optimistic]
      rw [mem_optimisticVotesSet_ne x requestId _ _ hx]
      exact mem_optimisticVotesSet_ne x requestId _ s.userVotes hx
  | otherError =>
      have step2 := fun r => frame_guarded_step requestId
        (rollbackVoteUpdate requestId (decide (requestId ∈ s.userVotes)))
        (fun a ha => rollbackVoteUpdate_ne requestId _ a ha)
        (fun a => rollbackVoteUpdate_id requestId _ a)
        (sortRequests (s.requests.map
          (optimisticVoteUpdate requestId (decide (requestId ∈ s.userVotes))))) r
      refine ⟨fun r hr hne => (step2 r).1 ((step1 r).1 hr hne) hne,
        fun r hr hne => (step1 r).2 ((step2 r).2 hr hne) hne, ?_⟩
      intro x hx
      show x ∈ rollbackVotesSet requestId (decide (requestId ∈ s.userVotes))
          (optimisticVotesSet requestId (decide (requestId ∈ s.userVotes)) s.userVotes)
        ↔ x ∈ s.userVotes
      rw [rollbackVotesSet_eq_optimistic]
      rw [mem_optimisticVotesSet_ne x requestId _ _ hx]
      exact mem_optimisticVotesSet_ne x requestId _ s.userVotes hx

/-- A chat message (`ChatMessage` of part_003 / useChat). -/
structure ChatMessage where
  id : String
  user_id : Option String
  content : String
  created_at : Int
  anonymous_user : Option AnonymousUser
  profiles : Option AnonymousUser
  _optimistic : Bool := false
  _error : Bool := false
deriving DecidableEq

/-- The own-message test of `handleNewMessage` (useChat lines 121-123):
for an anonymous profile compare only the anonymous author's username
string; otherwise compare `user_id`. With no profile both strict
comparisons against `undefined` are false. -/
def isOwnMessage (profile : Option Profile) (m : ChatMessage) : Bool :=
  match profile with
  | none => false
  | some p =>
      if p.is_anonymous then
        match m.anonymous_user with
        | some a => decide (a.username = p.username)
        | none => false
      else decide (m.user_id = some p.id)

/-- `handleNewMessage` (useChat lines 116-132): drop a broadcast message
recognized as the client's own, append anything else. -/
def handleNewMessage (profile : Option Profile) (messages : List ChatMessage)
    (m : ChatMessage) : List ChatMessage :=
  if isOwnMessage profile m then messages else messages ++ [m]

/-- Attach vote fields to a raw request record, as the merge does with
`{...newRequest, vote_count, hasUserVoted}`. -/
def withVotes (req : SongRequest) (vote_count : Int) (hasUserVoted : Bool) :
    SongRequestWithVotes :=
  { toSongRequest := req, vote_count := vote_count, hasUserVoted := hasUserVoted }

/-- `handleNewRequest` (useSongRequests.ts lines 123-145): if an entry with
the broadcast request's id already exists, replace it in place (keeping the
local vote count and flag); otherwise insert the request with zero votes
and re-sort. The author identity is never compared. -/
def handleNewRequest (prev : List SongRequestWithVotes) (newRequest : SongRequest) :
    List SongRequestWithVotes :=
  if prev.any fun r => r.id == newRequest.id then
    prev.map fun r =>
      if r.id = newRequest.id then withVotes newRequest r.vote_count r.hasUserVoted
      else r
  else
    sortRequests (prev ++ [withVotes newRequest 0 false])

/-- The success continuation of `addRequest` (useSongRequests.ts
lines 300-309): replace the optimistic placeholder, by id, with the
authoritative record, and re-sort. -/
def confirmRequest (optimisticEntryId : String) (insertedData : SongRequest)
    (prev : List SongRequestWithVotes) : List SongRequestWithVotes :=
  sortRequests (prev.map fun r =>
    if r.id = optimisticEntryId then withVotes insertedData 0 false else r)

/-- The anonymous profile used in concrete scenarios. -/
def aliceProfile : Profile :=
  { id := "local-alice", username := "alice", avatar_url := none,
    is_anonymous := true }

/-- The anonymous-identity descriptor embedded by `aliceProfile`'s
submissions. -/
def aliceAnon : AnonymousUser :=
  { username := "alice", avatar_url := none, is_anonymous := true }

/-- The optimistic placeholder of a request submitted by `aliceProfile` at
`Date.now() = 1000`. -/
def optReqAlice : SongRequestWithVotes :=
  { id := "optimistic-1000", user_id := none, song_name := "Imagine",
    artist := "John Lennon", status := RequestStatus.pending,
    created_at := 1000, played_at := none, anonymous_user := some aliceAnon,
    vote_count := 0, hasUserVoted := false, _optimistic := true }

/-- The authoritative row the insert returned for that submission. -/
def insertedReqAlice : SongRequest :=
  { id := "r1", user_id := none, song_name := "Imagine",
    artist := "John Lennon", status := RequestStatus.pending,
    created_at := 1005, played_at := none, anonymous_user := some aliceAnon }

/-- C3 counterexample: for song requests the merge compares entity id only,
so the client's own echoed new-request broadcast, arriving (as the code's
ordering allows: the broadcast is sent before the optimistic entry is
replaced) while the local entry still carries its placeholder id, is
inserted as a second entry; after the success continuation replaces the
placeholder, the list shows the same authoritative request twice — not
exactly one visible entry. -/
theorem C3_request_echo_counterexample :
    ((confirmRequest "optimistic-1000" insertedReqAlice
        (handleNewRequest [optReqAlice] insertedReqAlice)).countP
      fun r => r.id == "r1") = 2 := by
  decide

/-- C3 (amended): only the chat merge recognizes the client's own echoed
broadcast by author identity (anonymous username for anonymous profiles,
`user_id` otherwise) and suppresses it, leaving exactly the already-present
local entry. The song-request merge deduplicates by entity id alone: an
echo whose id is already present replaces that entry (list length
unchanged), but an echo arriving before the optimistic placeholder has
been replaced by the authoritative record is inserted as an additional
entry, so the client's own echoed request can be rendered twice. -/
theorem C3_own_echo_merge_amended :
    (∀ (p : Profile) (msgs : List ChatMessage) (m : ChatMessage) (a : AnonymousUser),
      p.is_anonymous = true → m.anonymous_user = some a → a.username = p.username →
      handleNewMessage (some p) msgs m = msgs) ∧
    (∀ (p : Profile) (msgs : List ChatMessage) (m : ChatMessage),
      p.is_anonymous = false → m.user_id = some p.id →
      handleNewMessage (some p) msgs m = msgs) ∧
    (∀ (prev : List SongRequestWithVotes) (req : SongRequest),
      (prev.any fun r => r.id == req.id) = true →
      (handleNewRequest prev req).length = prev.length) ∧
    ((confirmRequest "optimistic-1000" insertedReqAlice
        (handleNewRequest [optReqAlice] insertedReqAlice)).countP
      fun r => r.id == "r1") = 2 := by
  refine ⟨?_, ?_, ?_, by decide⟩
  · intro p msgs m a hanon hau huser
    unfold handleNewMessage isOwnMessage
    rw [hau]
    simp [hanon, huser]
  · intro p msgs m hanon huid
    unfold handleNewMessage isOwnMessage
    simp [hanon, huid]
  · intro prev req h
    unfold handleNewRequest
    rw [if_pos h]
    exact List.length_map prev _

/-- C10 (confirmed): with an anonymous local profile the chat merge
decides "own message" by comparing only the anonymous username string, so
every incoming broadcast message whose anonymous author's username equals
the local profile's username is dropped and never displayed — even one
genuinely sent by a different client using the same anonymous username. -/
theorem C10_anonymous_username_drop :
    ∀ (p : Profile) (msgs : List ChatMessage) (m : ChatMessage) (a : AnonymousUser),
      p.is_anonymous = true → m.anonymous_user = some a → a.username = p.username →
      handleNewMessage (some p) msgs m = msgs := by
  intro p msgs m a hanon hau huser
  unfold handleNewMessage isOwnMessage
  rw [hau]
  simp [hanon, huser]

/-- A message from a different client that happens to use the username
"alice": distinct id and content from anything `aliceProfile` sent. -/
def strangerMessage : ChatMessage :=
  { id := "m77", user_id := none, content := "hola", created_at := 5,
    anonymous_user := some aliceAnon, profiles := none }

/-- C10 witness: the stranger's message with the colliding anonymous
username is dropped from an empty transcript. -/
theorem C10_anonymous_username_drop_witness :
    handleNewMessage (some aliceProfile) [] strangerMessage = [] :=
  C10_anonymous_username_drop aliceProfile [] strangerMessage aliceAnon rfl rfl rfl

/-- `MAX_MESSAGE_LENGTH` (useChat line 40). -/
def MAX_MESSAGE_LENGTH : Nat := 500

/-- `MAX_SONG_NAME_LENGTH` (useSongRequests.ts line 15). -/
def MAX_SONG_NAME_LENGTH : Nat := 100

/-- `MAX_ARTIST_LENGTH` (useSongRequests.ts line 16). -/
def MAX_ARTIST_LENGTH : Nat := 100

/-- What the synchronous prefix of a submit call produces: either a local
rejection (the function returns failure before touching state or network)
or an attempt carrying the optimistic placeholder it inserts before
issuing its one durable write. -/
inductive SubmitOutcome (α : Type) where
  | rejected (errMsg : String)
  | attempted (placeholder : α)
deriving DecidableEq

/-- The placeholders a submit outcome inserted into the visible list. -/
def SubmitOutcome.placeholders {α : Type} : SubmitOutcome α → List α
  | SubmitOutcome.rejected _ => []
  | SubmitOutcome.attempted p => [p]

/-- The number of durable writes the submit outcome issued. -/
def SubmitOutcome.writeCount {α : Type} : SubmitOutcome α → Nat
  | SubmitOutcome.rejected _ => 0
  | SubmitOutcome.attempted _ => 1

/-- Whether the submit returned failure locally, before any network
activity. -/
def SubmitOutcome.failedLocally {α : Type} : SubmitOutcome α → Bool
  | SubmitOutcome.rejected _ => true
  | SubmitOutcome.attempted _ => false

/-- The synthetic placeholder identity both hooks create:
the template string `optimistic-` followed by `Date.now()` (useChat
line 214, useSongRequests.ts line 243). -/
def optimisticId (now : Nat) : String :=
  "optimistic-" ++ Nat.repr now

/-- The optimistic chat message built by `sendMessage` (useChat
lines 213-229). -/
def mkOptimisticMessage (p : Profile) (now : Nat) (sanitized : String) :
    ChatMessage :=
  { id := optimisticId now,
    user_id := if p.is_anonymous then none else some p.id,
    content := sanitized,
    created_at := (now : Int),
    anonymous_user :=
      if p.is_anonymous then
        some { username := p.username, avatar_url := p.avatar_url, is_anonymous := true }
      else none,
    profiles :=
      if p.is_anonymous then none
      else some { username := p.username, avatar_url := p.avatar_url, is_anonymous := false },
    _optimistic := true }

/-- The optimistic request built by `addRequest` (useSongRequests.ts
lines 242-258). -/
def mkOptimisticRequest (p : Profile) (now : Nat) (song artist : String) :
    SongRequestWithVotes :=
  { id := optimisticId now,
    user_id := if p.is_anonymous then none else some p.id,
    song_name := song,
    artist := artist,
    status := RequestStatus.pending,
    created_at := (now : Int),
    played_at := none,
    anonymous_user :=
      if p.is_anonymous then
        some { username := p.username, avatar_url := p.avatar_url, is_anonymous := true }
      else none,
    vote_count := 0,
    hasUserVoted := false,
    _optimistic := true }

/-- The synchronous prefix of `sendMessage` (useChat lines 183-232):
require a profile, sanitize the trimmed content, reject empty or oversized
input locally — returning failure with nothing inserted and no write
issued — and otherwise insert the placeholder and issue the write.
`sanitize` abstracts the DOMPurify text sanitizer. -/
def sendMessageLocal (sanitize : String → String) (now : Nat)
    (profile : Option Profile) (content : String) : SubmitOutcome ChatMessage :=
  match profile with
  | none => SubmitOutcome.rejected "Debes iniciar sesión para enviar mensajes"
  | some p =>
      let sanitized := sanitize content.trim
      if sanitized.length = 0 then
        SubmitOutcome.rejected "El mensaje no puede estar vacío"
      else if MAX_MESSAGE_LENGTH < sanitized.length then
        SubmitOutcome.rejected "Mensaje demasiado largo (máximo 500 caracteres)"
      else SubmitOutcome.attempted (mkOptimisticMessage p now sanitized)

/-- The synchronous prefix of `addRequest` (useSongRequests.ts
lines 203-261): require a profile, sanitize the trimmed song name and
artist, reject empty or oversized fields locally, otherwise insert the
placeholder (re-sorting) and issue the write. -/
def addRequestLocal (sanitize : String → String) (now : Nat)
    (profile : Option Profile) (songName artist : String) :
    SubmitOutcome SongRequestWithVotes :=
  match profile with
  | none => SubmitOutcome.rejected "Debes iniciar sesión para solicitar canciones"
  | some p =>
      let sanitizedSong := sanitize songName.trim
      let sanitizedArtist := sanitize artist.trim
      if sanitizedSong.length = 0 ∨ sanitizedArtist.length = 0 then
        SubmitOutcome.rejected "El nombre de la canción y el artista son requeridos"
      else if MAX_SONG_NAME_LENGTH < sanitizedSong.length then
        SubmitOutcome.rejected "Nombre de canción demasiado largo (máximo 100 caracteres)"
      else if MAX_ARTIST_LENGTH < sanitizedArtist.length then
        SubmitOutcome.rejected "Nombre de artista demasiado largo (máximo 100 caracteres)"
      else SubmitOutcome.attempted (mkOptimisticRequest p now sanitizedSong sanitizedArtist)

/-- C7 (confirmed): both submit paths trim and sanitize their inputs and
bound them (message at most 500 characters, song name and artist at most
100 characters each); an input whose sanitized trim is empty or over its
bound is rejected locally: the submit returns a local failure, inserts no
placeholder and issues no durable write. -/
theorem C7_validation_rejects_locally :
    ∀ (sanitize : String → String) (now : Nat) (profile : Option Profile)
      (content songName artist : String),
      ((sanitize content.trim).length = 0 ∨
          MAX_MESSAGE_LENGTH < (sanitize content.trim).length →
        (sendMessageLocal sanitize now profile content).failedLocally = true ∧
        (sendMessageLocal sanitize now profile content).placeholders = [] ∧
        (sendMessageLocal sanitize now profile content).writeCount = 0) ∧
      ((sanitize songName.trim).length = 0 ∨ (sanitize artist.trim).length = 0 ∨
          MAX_SONG_NAME_LENGTH < (sanitize songName.trim).length ∨
          MAX_ARTIST_LENGTH < (sanitize artist.trim).length →
        (addRequestLocal sanitize now profile songName artist).failedLocally = true ∧
        (addRequestLocal sanitize now profile songName artist).placeholders = [] ∧
        (addRequestLocal sanitize now profile songName artist).writeCount = 0) := by
  intro sanitize now profile content songName artist
  constructor
  · intro h
    cases profile with
    | none => exact ⟨rfl, rfl, rfl⟩
    | some p =>
        simp only [sendMessageLocal]
        split_ifs with h1 h2
        · exact ⟨rfl, rfl, rfl⟩
        · exact ⟨rfl, rfl, rfl⟩
        · omega
  · intro h
    cases profile with
    | none => exact ⟨rfl, rfl, rfl⟩
    | some p =>
        simp only [addRequestLocal]
        split_ifs with h1 h2 h3
        · exact ⟨rfl, rfl, rfl⟩
        · exact ⟨rfl, rfl, rfl⟩
        · exact ⟨rfl, rfl, rfl⟩
        · exact absurd h (by push_neg at h1 ⊢; omega)

/-- Reference decimal rendering of a natural number: recursion on the
quotient, most significant digit first. -/
def decDigits (n : Nat) : List Char :=
  if _h : n < 10 then [Nat.digitChar n]
  else decDigits (n / 10) ++ [Nat.digitChar (n % 10)]
decreasing_by exact Nat.div_lt_self (by omega) (by omega)

theorem decDigits_of_lt {n : Nat} (h : n < 10) :
    decDigits n = [Nat.digitChar n] := by
  rw [decDigits, dif_pos h]

theorem decDigits_of_ge {n : Nat} (h : ¬(n < 10)) :
    decDigits n = decDigits (n / 10) ++ [Nat.digitChar (n % 10)] := by
  rw [decDigits, dif_neg h]

theorem toDigitsCore_append (fuel n : Nat) (ds : List Char) :
    Nat.toDigitsCore 10 fuel n ds = Nat.toDigitsCore 10 fuel n [] ++ ds := by
  induction fuel generalizing n ds with
  | zero => simp [Nat.toDigitsCore]
  | succ fuel ih =>
      simp only [Nat.toDigitsCore]
      by_cases h : n / 10 = 0
      · simp [h]
      · simp only [h, if_false]
        rw [ih (n / 10) (Nat.digitChar (n % 10) :: ds),
          ih (n / 10) [Nat.digitChar (n % 10)], List.append_assoc]
        rfl

theorem toDigitsCore_eq_decDigits (fuel n : Nat) (h : n < fuel) :
    Nat.toDigitsCore 10 fuel n [] = decDigits n := by
  induction fuel generalizing n with
  | zero => omega
  | succ fuel ih =>
      simp only [Nat.toDigitsCore]
      by_cases h0 : n / 10 = 0
      · have hn : n < 10 := by omega
        rw [decDigits_of_lt hn]
        simp [h0, Nat.mod_eq_of_lt hn]
      · have hlt : n / 10 < fuel := by omega
        simp only [h0, if_false]
        rw [toDigitsCore_append, ih (n / 10) hlt,
          decDigits_of_ge (by omega : ¬(n < 10))]

theorem decDigits_ne_nil (n : Nat) : ¬(decDigits n = []) := by
  by_cases h : n < 10
  · rw [decDigits_of_lt h]
    simp
  · rw [decDigits_of_ge h]
    simp

theorem digitChar_inj_lt :
    ∀ a < 10, ∀ b < 10, Nat.digitChar a = Nat.digitChar b → a = b := by
  decide

theorem decDigits_inj : ∀ n m : Nat, decDigits n = decDigits m → n = m := by
  intro n
  induction n using Nat.strong_induction_on with
  | _ n ih =>
    intro m h
    by_cases hn : n < 10 <;> by_cases hm : m < 10
    · rw [decDigits_of_lt hn, decDigits_of_lt hm] at h
      simp only [List.cons.injEq, and_true] at h
      exact digitChar_inj_lt n hn m hm h
    · rw [decDigits_of_lt hn, decDigits_of_ge hm] at h
      have hlen := congrArg List.length h
      simp only [List.length_append, List.length_cons, List.length_nil] at hlen
      exact absurd (List.length_eq_zero.mp (by omega)) (decDigits_ne_nil (m / 10))
    · rw [decDigits_of_ge hn, decDigits_of_lt hm] at h
      have hlen := congrArg List.length h
      simp only [List.length_append, List.length_cons, List.length_nil] at hlen
      exact absurd (List.length_eq_zero.mp (by omega)) (decDigits_ne_nil (n / 10))
    · rw [decDigits_of_ge hn, decDigits_of_ge hm] at h
      have hrev := congrArg List.reverse h
      simp only [List.reverse_append, List.reverse_cons, List.reverse_nil,
        List.nil_append, List.singleton_append, List.cons.injEq] at hrev
      have hmod : n % 10 = m % 10 :=
        digitChar_inj_lt (n % 10) (Nat.mod_lt n (by omega)) (m % 10)
          (Nat.mod_lt m (by omega)) hrev.1
      have hdiv : n / 10 = m / 10 :=
        ih (n / 10) (Nat.div_lt_self (by omega) (by omega))
          (m / 10) (List.reverse_injective hrev.2)
      omega

theorem natRepr_inj (n m : Nat) (h : Nat.repr n = Nat.repr m) : n = m := by
  unfold Nat.repr Nat.toDigits at h
  rw [toDigitsCore_eq_decDigits (n + 1) n (by omega),
    toDigitsCore_eq_decDigits (m + 1) m (by omega)] at h
  exact decDigits_inj n m (List.asString_inj.mp h)

theorem optimisticId_inj (t1 t2 : Nat) (h : optimisticId t1 = optimisticId t2) :
    t1 = t2 := by
  unfold optimisticId at h
  have hdata := congrArg String.data h
  simp only [String.data_append] at hdata
  exact natRepr_inj t1 t2 (String.ext (List.append_cancel_left hdata))

/-- The placeholder of a first submit at `Date.now() = 1000`. -/
def optReqSongOne : SongRequestWithVotes :=
  mkOptimisticRequest aliceProfile 1000 "song one" "artist one"

/-- The placeholder of a second, concurrent submit in the same
millisecond, `Date.now() = 1000`. -/
def optReqSongTwo : SongRequestWithVotes :=
  mkOptimisticRequest aliceProfile 1000 "song two" "artist two"

/-- C8 counterexample: two submits in flight in the same millisecond get
placeholders with the SAME synthetic id (`Date.now()` is the only
distinguishing component), the placeholders being distinct entities; when
the first write's reconciliation replaces entries by that shared id, it
replaces the second submit's placeholder too, leaving two copies of the
first write's authoritative record — the second submit's placeholder is
destroyed by the other submit's reconciliation. -/
theorem C8_placeholder_collision_counterexample :
    optReqSongOne.id = optReqSongTwo.id ∧
    ¬(optReqSongOne = optReqSongTwo) ∧
    ((confirmRequest optReqSongOne.id insertedReqAlice
        [optReqSongOne, optReqSongTwo]).countP fun r => r.id == "r1") = 2 ∧
    ((confirmRequest optReqSongOne.id insertedReqAlice
        [optReqSongOne, optReqSongTwo]).countP
      fun r => r.song_name == "song two") = 0 := by
  refine ⟨by decide, by decide, by decide, by decide⟩

/-- C8 (amended): each submit's placeholder id is the string `optimistic-`
followed by its `Date.now()` value, so two in-flight submits get distinct
placeholder ids exactly when their `Date.now()` millisecond readings
differ (two submits in the same millisecond share one id and are not
independent); a placeholder id always decomposes as `optimistic-` followed
by a suffix, so it never equals a server-assigned id that has no such
decomposition; and reconciliation replaces entries by placeholder id only,
leaving every entry with a different id — in particular the other
submit's placeholder, when the timestamps differ — unchanged. -/
theorem C8_placeholder_identity_amended :
    (∀ (t1 t2 : Nat) (p1 p2 : Profile) (song1 artist1 song2 artist2 : String),
      ¬(t1 = t2) →
      ¬((mkOptimisticRequest p1 t1 song1 artist1).id
          = (mkOptimisticRequest p2 t2 song2 artist2).id)) ∧
    (∀ (t : Nat) (serverId : String),
      (¬ ∃ u : String, serverId = "optimistic-" ++ u) →
      ¬(optimisticId t = serverId)) ∧
    (∀ (prev : List SongRequestWithVotes) (entryId : String)
        (ins : SongRequest) (r : SongRequestWithVotes),
      r ∈ prev → ¬(r.id = entryId) → r ∈ confirmRequest entryId ins prev) := by
  refine ⟨?_, ?_, ?_⟩
  · intro t1 t2 p1 p2 song1 artist1 song2 artist2 hne h
    exact hne (optimisticId_inj t1 t2 h)
  · intro t serverId hno h
    exact hno ⟨Nat.repr t, h.symm⟩
  · intro prev entryId ins r hr hne
    unfold confirmRequest
    rw [mem_sortRequests, List.mem_map]
    exact ⟨r, hr, by rw [if_neg hne]⟩

end OGRadio
